import Mathlib

/-!
# Verification of the SumTube Discord bot against its specification

This file gives a shallow embedding, in Lean 4, of the claim-relevant parts of
the SumTube repository (a Cloudflare-worker Discord bot that summarizes
YouTube videos via the Gemini API), and proves or refutes the frozen claims
about it.

Embedding conventions:
* JavaScript strings are modelled as Lean `String` (sequences of Unicode
  scalar values).  JavaScript indexes strings by UTF-16 code units; the two
  models coincide on inputs without astral-plane characters.
* Values that may be `undefined`/`null` in JavaScript are modelled as
  `Option`; JavaScript truthiness of strings is "non-empty".
* `await`ed external operations (the Gemini SDK call, `fetch`, reading a
  response body) are oracles: their outcomes are inputs to the embedded
  functions.  A JavaScript exception is modelled with `Except`, the thrown
  error carrying an optional `message` string.
-/

/-! ## JavaScript value primitives -/

/-- A thrown JavaScript error, reduced to its optional `message` field. -/
abbrev JsErr := Option String

/-- JavaScript truthiness of a string: `""` is falsy, everything else truthy. -/
def jsTruthyStr (s : String) : Bool :=
  !(s == "")

/-- JavaScript truthiness of a possibly-absent string (`undefined`/`null` are falsy). -/
def jsTruthyOptStr : Option String → Bool
  | none => false
  | some s => jsTruthyStr s

/-- JavaScript `a || b` for a possibly-absent string `a` (falsy: absent or empty). -/
def jsOrStr (a : Option String) (b : String) : String :=
  match a with
  | none => b
  | some s => if s == "" then b else s

/-- Does `hay` start with `needle`?  (Exact, case-sensitive comparison.) -/
def listStartsWith : List Char → List Char → Bool
  | [], _ => true
  | _ :: _, [] => false
  | a :: as, b :: bs => a == b && listStartsWith as bs

/-- Does `hay` contain `needle` as a contiguous sublist?  Models
JavaScript `String.prototype.includes` (case-sensitive). -/
def listIncludes (needle : List Char) : List Char → Bool
  | [] => listStartsWith needle []
  | c :: t => listStartsWith needle (c :: t) || listIncludes needle t

/-- JavaScript `hay.includes(needle)`. -/
def strIncludes (hay needle : String) : Bool :=
  listIncludes needle.data hay.data

/-- JavaScript `m?.includes(needle)` used as a condition: `undefined` is falsy. -/
def optIncludes (m : Option String) (needle : String) : Bool :=
  match m with
  | none => false
  | some s => strIncludes s needle

/-- JavaScript `s.toLowerCase()`: character-wise lowering (ASCII letters;
the inputs compared in this program are ASCII command names). -/
def jsToLower (s : String) : String :=
  String.mk (s.data.map Char.toLower)

/-- JavaScript `\s`: the WhiteSpace and LineTerminator productions. -/
def jsSpace (c : Char) : Bool :=
  c == ' ' || c == '\t' || c == '\n' || c == '\x0b' || c == '\x0c' || c == '\r' ||
  c == '\u00a0' || c == '\u1680' ||
  ('\u2000' ≤ c && c ≤ '\u200a') ||
  c == '\u2028' || c == '\u2029' || c == '\u202f' || c == '\u205f' ||
  c == '\u3000' || c == '\ufeff'

/-- JavaScript `s.trim()`: strip WhiteSpace and LineTerminator characters
from both ends. -/
def jsTrim (s : String) : String :=
  String.mk (((s.data.dropWhile jsSpace).reverse.dropWhile jsSpace).reverse)

/-! ## Embedding of `src/gemini.ts` (`summarizeWithGemini`)

The Gemini SDK (`@google/genai`) is an external collaborator.  Its single
call site, `await ai.models.generateContent({model, contents})`, is modelled
as an oracle `provider : ProviderRequest → ProviderOutcome`: the promise
either resolves with a response whose `.text` is a possibly-absent string, or
rejects with a thrown error.  A non-success HTTP status from the provider is
not observable to this code: the SDK surfaces it as a rejection. -/

/-- The model identifier from `src/gemini.ts`: `export const model = 'gemini-2.5-flash'`. -/
def model : String := "gemini-2.5-flash"

/-- The request handed to the Gemini SDK: model id, prompt text, and the
video URI attached as `fileData`. -/
structure ProviderRequest where
  modelId : String
  promptText : String
  fileUri : String
deriving DecidableEq, Repr

/-- How the awaited SDK call terminates: resolve with `response.text`
(possibly absent), or reject with a thrown error. -/
inductive ProviderOutcome where
  | resolve (text : Option String)
  | reject (message : JsErr)
deriving DecidableEq, Repr

/-- The prompt template built in `summarizeWithGemini` (with `${videoId}`
interpolated). -/
def geminiPrompt (videoId : String) : String :=
  "\n        Analyze the following YouTube video and generate a concise summary formatted for a Discord message under 1700 characters.\n        - Start with a short summary summarizing the overall theme or purpose of the video.\n        - Each point must begin with a timestamp in [m:ss] format (e.g., [1:15]).\n        - Format the timestamp [m:ss] as a clickable hyperlink like: https://www.youtube.com/watch?v=" ++ videoId ++ "#t=SECONDS.\n        - Use total SECONDS for the timestamp (e.g., 75 instead of 01:15).\n        - Do not include any other text than the summary. minimalistic.\n        - If there is any important information that is not covered in the transcript, add it to the summary, like code, links, images, problems, solutions, etc.\n        "

/-- The request `summarizeWithGemini` submits to the SDK. -/
def geminiRequest (videoUrl videoId : String) : ProviderRequest :=
  { modelId := model, promptText := geminiPrompt videoId, fileUri := videoUrl }

/-- Message returned when `env.GEMINI_API_KEY` is falsy. -/
def configErrorMsg : String :=
  "❌ Gemini API key not configured. Please add GEMINI_API_KEY to your environment variables."

/-- Message returned when the SDK resolves but `response.text` is absent,
empty, or whitespace-only. -/
def noSummaryMsg : String :=
  "❌ Gemini API did not return a summary. The video might be private, unavailable, or the API encountered an issue."

/-- Message returned when the thrown error message contains `"API key"`. -/
def invalidKeyMsg : String :=
  "❌ Invalid API key. Please check your GEMINI_API_KEY environment variable."

/-- Message returned when the thrown error message contains `"quota"`. -/
def quotaMsg : String :=
  "❌ API quota exceeded. Please try again later or check your Gemini API usage limits."

/-- Message returned when the thrown error message contains `"blocked"`. -/
def blockedMsg : String :=
  "❌ Content was blocked. The video might contain restricted content or be unavailable."

/-- Message returned when the thrown error message contains `"not found"`. -/
def notFoundMsg : String :=
  "❌ Video not found. Please check if the YouTube URL is valid and the video is publicly accessible."

/-- The fallback message: `` `❌ Error calling Gemini API: ${error.message || 'Unknown error occurred'}` ``. -/
def genericErrorMsg (text : String) : String :=
  "❌ Error calling Gemini API: " ++ text

/-- The `try` block of `summarizeWithGemini`: submit the request, then
inspect `response.text`.  An `.error` is an exception escaping the block. -/
def geminiTryBlock (videoUrl videoId : String)
    (provider : ProviderRequest → ProviderOutcome) : Except JsErr String :=
  match provider (geminiRequest videoUrl videoId) with
  | .reject m => .error m
  | .resolve text =>
    match text with
    | none => .ok noSummaryMsg
    | some summary =>
      if jsTruthyStr summary && jsTruthyStr (jsTrim summary) then .ok (jsTrim summary)
      else .ok noSummaryMsg

/-- The `catch` block of `summarizeWithGemini`: substring classification of
the thrown error's message, in source order. -/
def geminiCatchBlock (m : JsErr) : String :=
  if optIncludes m "API key" then invalidKeyMsg
  else if optIncludes m "quota" then quotaMsg
  else if optIncludes m "blocked" then blockedMsg
  else if optIncludes m "not found" then notFoundMsg
  else genericErrorMsg (jsOrStr m "Unknown error occurred")

/-- `summarizeWithGemini(videoUrl, videoId, env)` from `src/gemini.ts`, as a
computation that could in principle end in an uncaught exception (`.error`).
The API key is `env.GEMINI_API_KEY` (absent or empty is falsy). -/
def summarizeWithGemini (videoUrl videoId : String) (apiKey : Option String)
    (provider : ProviderRequest → ProviderOutcome) : Except JsErr String :=
  if !(jsTruthyOptStr apiKey) then .ok configErrorMsg
  else
    match geminiTryBlock videoUrl videoId provider with
    | .ok s => .ok s
    | .error e => .ok (geminiCatchBlock e)

/-! ## Embedding of the YouTube-link regex (`src/index.ts`)

Both `containsYouTubeLink` and `extractYouTubeLinks` build the same regex
literal:

  `/(?:https?:\/\/)?(?:www\.)?(?:youtube\.com\/(?:[^/]+\/.+\/|(?:v|e(?:mbed)?)\/|.*[?&]v=)|youtu\.be\/)([^"&?/\s]{11})/gi`

The matcher below hand-compiles exactly this pattern, with JavaScript
backtracking semantics: alternatives are tried left to right, quantifiers
are greedy (longest first), matching is case-insensitive (`i` flag,
non-unicode mode: only ASCII letters case-fold), and the `g`-flag `exec`
loop yields successive leftmost matches, resuming after each match. -/

/-- Case-insensitive character comparison, as JavaScript `i`-flag
canonicalization in non-unicode mode: only ASCII letters fold. -/
def ciEq (a b : Char) : Bool :=
  a.toLower == b.toLower

/-- The capture-group character class `[^"&?/\s]`. -/
def idChar (c : Char) : Bool :=
  !(c == '"' || c == '&' || c == '?' || c == '/' || jsSpace c)

/-- The class of `.`: any character but a line terminator. -/
def dotChar (c : Char) : Bool :=
  !(c == '\n' || c == '\r' || c == '\u2028' || c == '\u2029')

/-- The class `[^/]`. -/
def notSlashChar (c : Char) : Bool :=
  !(c == '/')

/-- Consume a literal (case-insensitively), returning the rest of the input. -/
def dropLitCI : List Char → List Char → Option (List Char)
  | [], s => some s
  | _ :: _, [] => none
  | l :: ls, c :: cs => if ciEq l c then dropLitCI ls cs else none

/-- Remainders after a greedy `p*`: consume a maximal run of `p`-characters,
then shorter runs down to zero, in backtracking preference order. -/
def starSuffixes (p : Char → Bool) : List Char → List (List Char)
  | [] => [[]]
  | c :: rest =>
    if p c then starSuffixes p rest ++ [c :: rest]
    else [c :: rest]

/-- Remainders after a greedy `p+` (at least one character), in
backtracking preference order. -/
def plusSuffixes (p : Char → Bool) : List Char → List (List Char)
  | [] => []
  | c :: rest => if p c then starSuffixes p rest else []

/-- Remainders after `(?:https?:\/\/)?` (greedy: `https://`, `http://`,
then nothing). -/
def protoCands (s : List Char) : List (List Char) :=
  (dropLitCI "https://".data s).toList ++ (dropLitCI "http://".data s).toList ++ [s]

/-- Remainders after `(?:www\.)?`. -/
def wwwCands (s : List Char) : List (List Char) :=
  (dropLitCI "www.".data s).toList ++ [s]

/-- Remainders after the first `youtube.com` path alternative
`[^/]+\/.+\/`. -/
def pathAltCands (r : List Char) : List (List Char) :=
  (plusSuffixes notSlashChar r).flatMap (fun r1 =>
    match r1 with
    | '/' :: r2 =>
      (plusSuffixes dotChar r2).filterMap (fun r3 =>
        match r3 with
        | '/' :: r4 => some r4
        | _ => none)
    | _ => [])

/-- Remainders after the second alternative `(?:v|e(?:mbed)?)\/`
(preference order: `v/`, `embed/`, `e/`). -/
def embedAltCands (r : List Char) : List (List Char) :=
  (dropLitCI "v/".data r).toList ++ (dropLitCI "embed/".data r).toList ++
    (dropLitCI "e/".data r).toList

/-- Remainders after the third alternative `.*[?&]v=` (greedy `.*`: the
last `?v=`/`&v=` is preferred). -/
def queryAltCands (r : List Char) : List (List Char) :=
  (starSuffixes dotChar r).filterMap (fun r1 =>
    match r1 with
    | c :: r2 => if c == '?' || c == '&' then dropLitCI "v=".data r2 else none
    | [] => none)

/-- Remainders after the host alternation
`(?:youtube\.com\/(?:…|…|…)|youtu\.be\/)`. -/
def hostCands (s : List Char) : List (List Char) :=
  (match dropLitCI "youtube.com/".data s with
   | some r => pathAltCands r ++ embedAltCands r ++ queryAltCands r
   | none => []) ++
  (dropLitCI "youtu.be/".data s).toList

/-- All remainders after the full prefix of the pattern (everything before
the capture group), in backtracking preference order. -/
def prefixCands (s : List Char) : List (List Char) :=
  (protoCands s).flatMap (fun s1 => (wwwCands s1).flatMap hostCands)

/-- The capture group `([^"&?/\s]{11})`: exactly eleven class characters.
Returns the captured string and the rest of the input. -/
def captureId (s : List Char) : Option (String × List Char) :=
  if (s.take 11).length == 11 && (s.take 11).all idChar then
    some (String.mk (s.take 11), s.drop 11)
  else none

/-- Try to match the whole pattern at the start of `s`: first prefix
candidate (in preference order) from which the capture group succeeds. -/
def matchAt (s : List Char) : Option (String × List Char) :=
  (prefixCands s).findSome? captureId

/-- One extracted link: `match[0]` (the full matched text) and `match[1]`
(the captured video id). -/
structure YTLink where
  url : String
  videoId : String
deriving DecidableEq, Repr

/-- Package a successful match at the start of `s` as `YTLink` plus the
remaining input: `match[0]` is the consumed text, `match[1]` the capture. -/
def mkLink (s : List Char) (pr : String × List Char) : YTLink × List Char :=
  (⟨String.mk (s.take (s.length - pr.2.length)), pr.1⟩, pr.2)

/-- Leftmost match at or after the start of `s`: JavaScript `exec` tries
each start position in turn.  Returns the link and the input remaining
after the match (`lastIndex`). -/
def scanNext : List Char → Option (YTLink × List Char)
  | [] => (matchAt []).map (mkLink [])
  | c :: t =>
    match matchAt (c :: t) with
    | some pr => some (mkLink (c :: t) pr)
    | none => scanNext t

/-- The `while ((match = youtubeRegex.exec(content)) !== null)` loop.  Fuel
bounds the iteration count: every match consumes at least the host literal
plus eleven id characters, so `|content| + 1` iterations always suffice. -/
def extractLoop : Nat → List Char → List YTLink
  | 0, _ => []
  | fuel + 1, s =>
    match scanNext s with
    | none => []
    | some (lnk, rest) => lnk :: extractLoop fuel rest

/-- `extractYouTubeLinks(content)` from `src/index.ts`. -/
def extractYouTubeLinks (content : String) : List YTLink :=
  extractLoop (content.data.length + 1) content.data

/-- `containsYouTubeLink(content)` from `src/index.ts`: `regex.test` on a
freshly built regex, i.e. "some match exists". -/
def containsYouTubeLink (content : String) : Bool :=
  (scanNext content.data).isSome

/-! ## Embedding of the `/discord` handler (`src/index.ts`)

The handler's synchronous phase verifies the request signature, dispatches
on the interaction, and returns exactly one response; for a validated
`summarize` command it also schedules one background task via
`c.executionCtx.waitUntil`.  The embedding returns the synchronous response
together with an optional description of the scheduled background task.

`verifyKey` (the `discord-interactions` library) and `JSON.parse` are
external: their results are oracle inputs. -/

/-- One entry of `interaction.data.options`. -/
structure CommandOption where
  name : String
  value : String
deriving DecidableEq, Repr

/-- `interaction.data`. -/
structure InteractionData where
  name : String
  options : Option (List CommandOption)
deriving DecidableEq, Repr

/-- A parsed Discord interaction (the fields the handler reads). -/
structure DiscordInteraction where
  type : Nat
  token : Option String
  data : Option InteractionData
deriving DecidableEq, Repr

/-- `InteractionType.PING` from the `discord-interactions` library. -/
def InteractionType_PING : Nat := 1

/-- `InteractionType.APPLICATION_COMMAND` from the `discord-interactions` library. -/
def InteractionType_APPLICATION_COMMAND : Nat := 2

/-- `InteractionResponseType.PONG`. -/
def InteractionResponseType_PONG : Nat := 1

/-- `InteractionResponseType.CHANNEL_MESSAGE_WITH_SOURCE`. -/
def InteractionResponseType_CHANNEL_MESSAGE_WITH_SOURCE : Nat := 4

/-- `InteractionResponseType.DEFERRED_CHANNEL_MESSAGE_WITH_SOURCE` (the
literal `5` in the source). -/
def InteractionResponseType_DEFERRED : Nat := 5

/-- Modelled from the spec: the command descriptors `ABOUT_COMMAND` and
`SUMMARIZE_COMMAND` live in `src/commands.ts`, which is not among the given
sources; the spec's command schema names the two commands `about` and
`summarize`. -/
def ABOUT_COMMAND_name : String := "about"

/-- Modelled from the spec: the `summarize` command's registered name (see
`ABOUT_COMMAND_name`). -/
def SUMMARIZE_COMMAND_name : String := "summarize"

/-- The synchronous response of the `/discord` endpoint: one constructor
per `return` site of the handler. -/
inductive HandlerResponse where
  /-- `c.text('Bad request signature.', 401)` -/
  | badSignature
  /-- `c.json({type: InteractionResponseType.PONG})` -/
  | pong
  /-- `c.json({type: CHANNEL_MESSAGE_WITH_SOURCE, data: {content}})` -/
  | channelMessage (content : String)
  /-- `c.json({type: 5})`, the deferred acknowledgment -/
  | deferred
  /-- `c.json({error: 'Unknown Command'}, 400)` -/
  | unknownCommand
deriving DecidableEq, Repr

/-- The HTTP status of a synchronous response (Hono defaults to 200). -/
def statusOf : HandlerResponse → Nat
  | .badSignature => 401
  | .unknownCommand => 400
  | _ => 200

/-- The interaction-response `type` code carried by a JSON response, if any. -/
def respTypeCode : HandlerResponse → Option Nat
  | .pong => some InteractionResponseType_PONG
  | .channelMessage _ => some InteractionResponseType_CHANNEL_MESSAGE_WITH_SOURCE
  | .deferred => some InteractionResponseType_DEFERRED
  | _ => none

/-- Data captured by the scheduled background task: the user-supplied `url`,
the extracted `videoId`, and the canonical `videoUrl` built from it. -/
structure BgSpec where
  url : String
  videoId : String
  videoUrl : String
deriving DecidableEq, Repr

/-- Content of the reply to `/summarize` without a `url` option. -/
def noUrlMsg : String := "❌ Please provide a YouTube URL to summarize."

/-- Content of the reply to `/summarize` with a URL the pattern rejects. -/
def invalidUrlMsg : String :=
  "❌ Please provide a valid YouTube URL. Supported formats:\n• https://www.youtube.com/watch?v=VIDEO_ID\n• https://youtu.be/VIDEO_ID\n• And other YouTube URL variations"

/-- Content of the reply when no video id could be extracted. -/
def noExtractMsg : String := "❌ Could not extract video ID from the provided URL."

/-- The static `/about` reply. -/
def aboutMsg : String :=
  "🎥 **YouTube Summarizer Bot**\n\n📝 **Purpose**: I provide AI-powered summaries of YouTube videos!\n\n🔗 **How to use**:\n• Use `/summarize <youtube-url>` to get a video summary\n• Works with any YouTube URL format\n• Powered by advanced AI for intelligent analysis\n\n🏠 **Homepage**: https://sumtube.heysuvajit.workers.dev/\n📂 **Source Code**: https://github.com/Sp4Rx/sumtube\n\n✨ **Commands**:\n• `/about` - Show this information\n• `/summarize <url>` - Summarize a YouTube video"

/-- The catch-all reply for interaction types other than PING and
APPLICATION_COMMAND. -/
def fallbackMsg : String :=
  "👋 I\x27m a YouTube summarizer bot! Post a YouTube link and I\x27ll summarize it for you!"

/-- The `case SUMMARIZE_COMMAND.name.toLowerCase()` body: option lookup,
URL validation, extraction, and (on success) the deferred reply plus the
scheduled background task. -/
def summarizeBranch (d : InteractionData) : HandlerResponse × Option BgSpec :=
  match (d.options.getD []).find? (fun o => o.name == "url") with
  | none => (.channelMessage noUrlMsg, none)
  | some o =>
    if o.value == "" then (.channelMessage noUrlMsg, none)
    else
      let url := o.value
      if !(containsYouTubeLink url) then (.channelMessage invalidUrlMsg, none)
      else
        match extractYouTubeLinks url with
        | [] => (.channelMessage noExtractMsg, none)
        | lnk :: _ =>
          (.deferred,
           some { url := url, videoId := lnk.videoId,
                  videoUrl := "https://www.youtube.com/watch?v=" ++ lnk.videoId })

/-- The `switch (interaction.data?.name.toLowerCase())` dispatch of the
APPLICATION_COMMAND branch.  An absent `data` makes the optional chain
yield `undefined`, which matches no case. -/
def commandDispatch (data : Option InteractionData) : HandlerResponse × Option BgSpec :=
  match data with
  | none => (.unknownCommand, none)
  | some d =>
    let n := jsToLower d.name
    if n == jsToLower ABOUT_COMMAND_name then (.channelMessage aboutMsg, none)
    else if n == jsToLower SUMMARIZE_COMMAND_name then summarizeBranch d
    else (.unknownCommand, none)

/-- Inputs of one `/discord` request: the two signature headers, the oracle
result of `verifyKey`, and the oracle result of `JSON.parse(body)` (`none`
covers a nullish parse). -/
structure HandlerInput where
  signature : Option String
  timestamp : Option String
  verifyOk : Bool
  parsed : Option DiscordInteraction
deriving DecidableEq, Repr

/-- The `/discord` handler's synchronous phase (`app.post("/discord")`),
composed with `verifyDiscordRequest`. -/
def handleDiscord (inp : HandlerInput) : HandlerResponse × Option BgSpec :=
  let isValid := jsTruthyOptStr inp.signature && jsTruthyOptStr inp.timestamp && inp.verifyOk
  match inp.parsed, isValid with
  | some it, true =>
    if it.type == InteractionType_PING then (.pong, none)
    else if it.type == InteractionType_APPLICATION_COMMAND then commandDispatch it.data
    else (.channelMessage fallbackMsg, none)
  | _, _ => (.badSignature, none)

/-! ## Embedding of the background task

The task scheduled by `waitUntil`: call `summarizeWithGemini`, PATCH the
original message with the summary; on a non-success status, read the error
body and PATCH once more with a degraded payload inside an inner
`try`/`catch` that only logs; any exception escaping the outer `try` is
caught and answered with one apology PATCH — which is itself unguarded.

All three `fetch` call sites PATCH the same webhook URL
(`.../webhooks/{applicationId}/{token}/messages/@original`); the embedding
records, in order, the `content` field of every PATCH attempted. -/

deriving instance DecidableEq for Except

/-- Delivery-side oracle for one run of the background task. -/
structure BgWorld where
  /-- First PATCH: thrown error, or a response with its `ok` flag. -/
  firstPatchRes : Except JsErr Bool
  /-- `editResponse.text()` (read only when `ok` is false): thrown or the body. -/
  firstPatchText : Except JsErr String
  /-- Retry PATCH inside the inner `try`: thrown error, or response `ok` flag. -/
  retryPatchRes : Except JsErr Bool
  /-- Apology PATCH inside the outer `catch`: thrown error, or response `ok` flag. -/
  apologyPatchRes : Except JsErr Bool
deriving DecidableEq, Repr

/-- Payload of the first PATCH. -/
def successContent (url summary : String) : String :=
  "**YouTube Video Summary**\n\n🎬 **Video:** " ++ url ++ "\n\n" ++ summary ++
    "\n\n✨ *Powered by " ++ model ++ "*"

/-- Payload of the retry PATCH (degraded: embeds the Discord error body,
not the summary). -/
def degradedContent (errorText : String) : String :=
  "❌ Sorry, I couldn\x27t summarize this video.\n ```" ++ errorText ++ "```"

/-- Payload of the apology PATCH sent from the outer `catch`. -/
def apologyContent (url : String) : String :=
  "❌ Sorry, I couldn\x27t summarize this video. Please try again later.\n\n📹 **Video:** " ++ url

/-- The outer `catch` block: one apology PATCH, not itself guarded.  `calls`
are the PATCH contents already attempted; the result is the task's final
outcome (`.error` = an exception escapes the background task). -/
def bgCatch (url : String) (w : BgWorld) (calls : List String) :
    Except JsErr Unit × List String :=
  let calls' := calls ++ [apologyContent url]
  match w.apologyPatchRes with
  | .error e => (.error e, calls')
  | .ok _ => (.ok (), calls')

/-- The whole background task.  `summStep` is the awaited result of the
`summarizeWithGemini` call (an `.error` would be a rejection of that
await). -/
def bgTask (url : String) (summStep : Except JsErr String) (w : BgWorld) :
    Except JsErr Unit × List String :=
  match summStep with
  | .error _ => bgCatch url w []
  | .ok summary =>
    let calls1 := [successContent url summary]
    match w.firstPatchRes with
    | .error _ => bgCatch url w calls1
    | .ok true => (.ok (), calls1)
    | .ok false =>
      match w.firstPatchText with
      | .error _ => bgCatch url w calls1
      | .ok errorText =>
        let calls2 := calls1 ++ [degradedContent errorText]
        match w.retryPatchRes with
        | .error _ => (.ok (), calls2)
        | .ok _ => (.ok (), calls2)

/-- The background task as scheduled by the handler for a validated
`summarize` invocation: its summarizer step is the embedded
`summarizeWithGemini` applied to the extracted video. -/
def runSummarize (bg : BgSpec) (apiKey : Option String)
    (provider : ProviderRequest → ProviderOutcome) (w : BgWorld) :
    Except JsErr Unit × List String :=
  bgTask bg.url (summarizeWithGemini bg.videoUrl bg.videoId apiKey provider) w

/-- Does control reach the outer `catch` of the background task? -/
def reachesCatch (summStep : Except JsErr String) (w : BgWorld) : Bool :=
  match summStep with
  | .error _ => true
  | .ok _ =>
    match w.firstPatchRes with
    | .error _ => true
    | .ok true => false
    | .ok false =>
      match w.firstPatchText with
      | .error _ => true
      | .ok _ => false

/-- Is an `Except` outcome a thrown exception? -/
def isThrown : Except JsErr α → Bool
  | .error _ => true
  | .ok _ => false

/-! ## Spec-side definitions

These definitions follow the specification's words (not the source); they
exist to be compared with the embedded code. -/

/-- The failure classes of the spec's §4.3 error mapping.  The mapping's
"non-success HTTP status" case has no counterpart here: through the Gemini
SDK a non-success status is observable only as a rejection, so that case
can never match. -/
inductive FailureClass where
  | configError
  | invalidKey
  | quotaExceeded
  | contentBlocked
  | videoNotFound
  | genericError (text : String)
  | noSummary
deriving DecidableEq, Repr

/-- The spec's §4.3 mapping, written from the spec's words in the spec's
order (first match wins): missing/absent credential; then, for a rejected
call, substring lookup in the error text for "API key", "quota", "blocked",
"not found", else a generic error carrying the exception text; and for a
successful call, an empty or whitespace-only response maps to the
no-summary class.  `none` means a usable summary was produced. -/
def specClassify (apiKey : Option String) (outcome : ProviderOutcome) :
    Option FailureClass :=
  if !(jsTruthyOptStr apiKey) then some .configError
  else
    match outcome with
    | .reject m =>
      if optIncludes m "API key" then some .invalidKey
      else if optIncludes m "quota" then some .quotaExceeded
      else if optIncludes m "blocked" then some .contentBlocked
      else if optIncludes m "not found" then some .videoNotFound
      else some (.genericError (jsOrStr m "Unknown error occurred"))
    | .resolve text =>
      match text with
      | none => some .noSummary
      | some s => if jsTrim s == "" then some .noSummary else none

/-- The concrete user-facing message the code attaches to each failure
class. -/
def messageForClass : FailureClass → String
  | .configError => configErrorMsg
  | .invalidKey => invalidKeyMsg
  | .quotaExceeded => quotaMsg
  | .contentBlocked => blockedMsg
  | .videoNotFound => notFoundMsg
  | .genericError t => genericErrorMsg t
  | .noSummary => noSummaryMsg

/-- Modelled from the spec: "videoId is always exactly 11 characters from
the platform's identifier alphabet" — the YouTube video-id alphabet
`A–Z a–z 0–9 - _`. -/
def ytAlphabetChar (c : Char) : Bool :=
  (('A' ≤ c && c ≤ 'Z') || ('a' ≤ c && c ≤ 'z') || ('0' ≤ c && c ≤ '9') ||
    c == '-' || c == '_')

/-! ## Helper lemmas -/

/-- `String.append` concatenates the underlying character lists. -/
theorem strData_append (a b : String) : (a ++ b).data = a.data ++ b.data := rfl

/-- A successful `findSome?` comes from some list element. -/
theorem findSome?_eq_some_exists {α β : Type} {f : α → Option β} :
    ∀ {l : List α} {b : β}, l.findSome? f = some b → ∃ a, a ∈ l ∧ f a = some b := by
  intro l
  induction l with
  | nil => intro b h; simp [List.findSome?] at h
  | cons a t ih =>
    intro b h
    rw [List.findSome?] at h
    cases hf : f a with
    | some b' =>
      rw [hf] at h
      exact ⟨a, List.mem_cons_self a t, hf.trans h⟩
    | none =>
      rw [hf] at h
      obtain ⟨x, hx, hfx⟩ := ih h
      exact ⟨x, List.mem_cons_of_mem a hx, hfx⟩

/-- A list starts with itself (up to any continuation). -/
theorem listStartsWith_self_append : ∀ (n m : List Char), listStartsWith n (n ++ m) = true := by
  intro n
  induction n with
  | nil => intro m; rfl
  | cons c t ih => intro m; simp [listStartsWith, ih]

/-- `listIncludes` finds a needle placed anywhere inside the haystack. -/
theorem listIncludes_append (n : List Char) :
    ∀ (pre post : List Char), listIncludes n (pre ++ (n ++ post)) = true := by
  intro pre
  induction pre with
  | nil =>
    intro post
    cases hn : n ++ post with
    | nil => simp [listIncludes, ← hn, listStartsWith_self_append]
    | cons c t => simp [listIncludes, ← hn, listStartsWith_self_append]
  | cons c t ih =>
    intro post
    simp [listIncludes, ih]

/-! ## Claim C4 -/

/-- C4: for every `videoUrl`, `videoId` and environment, and every provider
behavior — rejection, missing API key, or empty response —
`summarizeWithGemini` never throws: it terminates by returning a string. -/
theorem c4_summarize_never_throws (videoUrl videoId : String) (apiKey : Option String)
    (provider : ProviderRequest → ProviderOutcome) :
    isThrown (summarizeWithGemini videoUrl videoId apiKey provider) = false := by
  unfold summarizeWithGemini
  split
  · rfl
  · split <;> rfl

/-! ## Claim C6 -/

/-- C6: `containsYouTubeLink text` is `true` exactly when
`extractYouTubeLinks text` is non-empty; in particular both report "no
link" together. -/
theorem c6_contains_iff_extract_ne_nil (content : String) :
    containsYouTubeLink content = true ↔ extractYouTubeLinks content ≠ [] := by
  unfold containsYouTubeLink extractYouTubeLinks
  cases h : scanNext content.data with
  | none => simp [extractLoop, h]
  | some pr => obtain ⟨lnk, rest⟩ := pr; simp [extractLoop, h]

/-! ## Claim C9 -/

/-- C9: whenever signature verification fails (missing signature header,
missing timestamp header, or `verifyKey` returning false) the `/discord`
endpoint answers HTTP 401 and performs no further action: no command
dispatch, no background task, hence zero outbound calls. -/
theorem c9_invalid_signature_rejected (inp : HandlerInput)
    (h : jsTruthyOptStr inp.signature = false ∨ jsTruthyOptStr inp.timestamp = false ∨
      inp.verifyOk = false) :
    handleDiscord inp = (.badSignature, none) ∧ statusOf (handleDiscord inp).1 = 401 := by
  have hv : (jsTruthyOptStr inp.signature && jsTruthyOptStr inp.timestamp && inp.verifyOk)
      = false := by
    rcases h with h | h | h <;> simp [h]
  have hmain : handleDiscord inp = (.badSignature, none) := by
    unfold handleDiscord
    rw [hv]
    cases inp.parsed <;> rfl
  exact ⟨hmain, by rw [hmain]; rfl⟩

/-- Witness for C9 at a concrete input (missing signature header). -/
theorem c9_witness :
    handleDiscord ⟨none, some "ts", true, none⟩ = (.badSignature, none) ∧
      statusOf (handleDiscord ⟨none, some "ts", true, none⟩).1 = 401 :=
  c9_invalid_signature_rejected ⟨none, some "ts", true, none⟩ (Or.inl rfl)

/-! ## Claim C1 -/

/-- C1: whenever no usable summary is produced, the message returned by
`summarizeWithGemini` is the one attached to the first matching case of the
spec's §4.3 mapping, evaluated in the spec's order (`specClassify`).  The
mapping's "non-success HTTP status" case never matches: through the SDK
such a status is observable only as a rejection, which the substring
classification handles. -/
theorem c1_failure_messages_follow_spec (videoUrl videoId : String) (apiKey : Option String)
    (provider : ProviderRequest → ProviderOutcome) (cl : FailureClass)
    (h : specClassify apiKey (provider (geminiRequest videoUrl videoId)) = some cl) :
    summarizeWithGemini videoUrl videoId apiKey provider = .ok (messageForClass cl) := by
  unfold specClassify at h
  unfold summarizeWithGemini geminiTryBlock geminiCatchBlock
  cases hk : jsTruthyOptStr apiKey with
  | false =>
    simp [hk] at h ⊢
    rw [← h]
    rfl
  | true =>
    simp only [hk] at h ⊢
    cases hout : provider (geminiRequest videoUrl videoId) with
    | reject m =>
      rw [hout] at h
      simp only [Bool.not_true, if_false] at h ⊢
      by_cases h1 : optIncludes m "API key" = true
      · simp [h1] at h ⊢; rw [← h]; rfl
      · simp only [Bool.not_eq_true] at h1
        by_cases h2 : optIncludes m "quota" = true
        · simp [h1, h2] at h ⊢; rw [← h]; rfl
        · simp only [Bool.not_eq_true] at h2
          by_cases h3 : optIncludes m "blocked" = true
          · simp [h1, h2, h3] at h ⊢; rw [← h]; rfl
          · simp only [Bool.not_eq_true] at h3
            by_cases h4 : optIncludes m "not found" = true
            · simp [h1, h2, h3, h4] at h ⊢; rw [← h]; rfl
            · simp only [Bool.not_eq_true] at h4
              simp [h1, h2, h3, h4] at h ⊢
              rw [← h]
              rfl
    | resolve text =>
      rw [hout] at h
      simp only [Bool.not_true, if_false] at h ⊢
      cases text with
      | none => simp at h ⊢; rw [← h]; rfl
      | some s =>
        by_cases he : jsTrim s == ""
        · have hs : jsTruthyStr (jsTrim s) = false := by
            simp [jsTruthyStr, he]
          simp [he, hs] at h ⊢
          rw [← h]
          rfl
        · simp [he] at h

/-- Witness for C1: a provider rejection whose message mentions "quota"
yields the quota-exceeded message. -/
theorem c1_witness :
    specClassify (some "key")
        ((fun _ => ProviderOutcome.reject (some "quota reached")) (geminiRequest "u" "v"))
      = some .quotaExceeded ∧
    summarizeWithGemini "u" "v" (some "key")
        (fun _ => ProviderOutcome.reject (some "quota reached"))
      = .ok (messageForClass .quotaExceeded) :=
  ⟨by decide, c1_failure_messages_follow_spec "u" "v" (some "key")
    (fun _ => ProviderOutcome.reject (some "quota reached")) .quotaExceeded (by decide)⟩

/-! ## Claim C5 -/

/-- A successful capture is exactly eleven characters of the class
`[^"&?/\s]`. -/
theorem captureId_shape {s : List Char} {id : String} {rest : List Char}
    (h : captureId s = some (id, rest)) :
    id.length = 11 ∧ id.data.all idChar = true := by
  rw [captureId] at h
  split at h
  case isTrue hc =>
    simp only [Option.some.injEq, Prod.mk.injEq] at h
    simp only [Bool.and_eq_true, beq_iff_eq] at hc
    rw [← h.1]
    exact ⟨hc.1, hc.2⟩
  case isFalse => simp at h

/-- A match anywhere yields a capture of the regular shape. -/
theorem matchAt_shape {s : List Char} {id : String} {rest : List Char}
    (h : matchAt s = some (id, rest)) :
    id.length = 11 ∧ id.data.all idChar = true := by
  unfold matchAt at h
  obtain ⟨c, _, hc⟩ := findSome?_eq_some_exists h
  exact captureId_shape hc

/-- Every link produced by the `exec` scan has a capture of the regular
shape. -/
theorem scanNext_shape : ∀ (s : List Char) (lnk : YTLink) (rest : List Char),
    scanNext s = some (lnk, rest) →
    lnk.videoId.length = 11 ∧ lnk.videoId.data.all idChar = true := by
  intro s
  induction s with
  | nil =>
    intro lnk rest h
    rw [scanNext] at h
    cases hm : matchAt [] with
    | some pr =>
      obtain ⟨id, r⟩ := pr
      rw [hm] at h
      simp only [Option.map, Option.some.injEq, Prod.mk.injEq, mkLink] at h
      have hsh := matchAt_shape hm
      have hv : lnk.videoId = id := by rw [← h.1]
      rw [hv]
      exact hsh
    | none => rw [hm] at h; exact absurd h (by simp)
  | cons c t ih =>
    intro lnk rest h
    rw [scanNext] at h
    cases hm : matchAt (c :: t) with
    | some pr =>
      obtain ⟨id, r⟩ := pr
      rw [hm] at h
      simp only [Option.some.injEq, Prod.mk.injEq, mkLink] at h
      have hsh := matchAt_shape hm
      have hv : lnk.videoId = id := by rw [← h.1]
      rw [hv]
      exact hsh
    | none => rw [hm] at h; exact ih lnk rest h

/-- Every link in the extraction loop's output has a capture of the regular
shape, whatever the fuel. -/
theorem extractLoop_shape : ∀ (fuel : Nat) (s : List Char) (lnk : YTLink),
    lnk ∈ extractLoop fuel s →
    lnk.videoId.length = 11 ∧ lnk.videoId.data.all idChar = true := by
  intro fuel
  induction fuel with
  | zero => intro s lnk h; simp [extractLoop] at h
  | succ n ih =>
    intro s lnk h
    rw [extractLoop] at h
    cases hs : scanNext s with
    | none => rw [hs] at h; simp at h
    | some pr =>
      rw [hs] at h
      obtain ⟨l0, rest⟩ := pr
      simp only [List.mem_cons] at h
      rcases h with h | h
      · rw [h]; exact scanNext_shape s l0 rest hs
      · exact ih rest lnk h

/-- Counterexample to C5 as stated: the capture class `[^"&?/\s]` is wider
than the platform's identifier alphabet, so `!` can land in a `videoId`. -/
theorem c5_counterexample :
    extractYouTubeLinks "youtu.be/abcdefghij!" = [⟨"youtu.be/abcdefghij!", "abcdefghij!"⟩] ∧
    ("abcdefghij!".data.all ytAlphabetChar) = false := by
  constructor
  · decide
  · decide

/-- C5 amended: every entry returned by `extractYouTubeLinks` has a
`videoId` of exactly 11 characters, each of which is not `"`, `&`, `?`,
`/` or JavaScript whitespace (the regex's capture class) — but not
necessarily inside the platform's `A–Z a–z 0–9 - _` alphabet. -/
theorem c5_amended_id_shape (content : String) (lnk : YTLink)
    (h : lnk ∈ extractYouTubeLinks content) :
    lnk.videoId.length = 11 ∧ lnk.videoId.data.all idChar = true :=
  extractLoop_shape (content.data.length + 1) content.data lnk h

/-- Witness for the amended C5 on the spec's concrete scenario. -/
theorem c5_amended_witness :
    (⟨"https://youtu.be/dQw4w9WgXcQ", "dQw4w9WgXcQ"⟩ : YTLink) ∈
        extractYouTubeLinks "https://youtu.be/dQw4w9WgXcQ" ∧
    ("dQw4w9WgXcQ" : String).length = 11 ∧ ("dQw4w9WgXcQ" : String).data.all idChar = true :=
  ⟨by decide,
   c5_amended_id_shape "https://youtu.be/dQw4w9WgXcQ" ⟨"https://youtu.be/dQw4w9WgXcQ", "dQw4w9WgXcQ"⟩
     (by decide)⟩

/-! ## Claim C8 -/

/-- If no option named `url` has a non-empty value, a successful `find?`
for `url` yields an empty value. -/
theorem find?_url_empty : ∀ {l : List CommandOption} {o : CommandOption},
    (∀ x ∈ l, x.name = "url" → x.value = "") →
    l.find? (fun x => x.name == "url") = some o → o.value = "" := by
  intro l
  induction l with
  | nil => intro o _ h; simp [List.find?] at h
  | cons a t ih =>
    intro o hall h
    cases hp : (a.name == "url") with
    | true =>
      simp only [List.find?, hp] at h
      simp only [Option.some.injEq] at h
      rw [← h]
      exact hall a (List.mem_cons_self a t) (by simpa using hp)
    | false =>
      simp only [List.find?, hp] at h
      exact ih (fun x hx => hall x (List.mem_cons_of_mem a hx)) h

/-- C8: a validated `summarize` command whose options carry no `url` value
gets the synchronous (non-deferred) CHANNEL_MESSAGE_WITH_SOURCE prompt to
supply a URL, and schedules no background task — no summarizer call, no
webhook PATCH. -/
theorem c8_no_url_synchronous_prompt (inp : HandlerInput) (it : DiscordInteraction)
    (d : InteractionData)
    (hsig : jsTruthyOptStr inp.signature = true) (hts : jsTruthyOptStr inp.timestamp = true)
    (hok : inp.verifyOk = true) (hp : inp.parsed = some it)
    (htype : it.type = InteractionType_APPLICATION_COMMAND) (hd : it.data = some d)
    (hname : jsToLower d.name = "summarize")
    (hnourl : ∀ o ∈ d.options.getD [], o.name = "url" → o.value = "") :
    handleDiscord inp = (.channelMessage noUrlMsg, none) ∧
    respTypeCode (handleDiscord inp).1
      = some InteractionResponseType_CHANNEL_MESSAGE_WITH_SOURCE := by
  have hbranch : summarizeBranch d = (.channelMessage noUrlMsg, none) := by
    unfold summarizeBranch
    cases hf : (d.options.getD []).find? (fun o => o.name == "url") with
    | none => rfl
    | some o =>
      have hv : o.value = "" := find?_url_empty hnourl hf
      simp [hv]
  have hmain : handleDiscord inp = (.channelMessage noUrlMsg, none) := by
    obtain ⟨sig, ts, vo, pa⟩ := inp
    simp only at hsig hts hok hp
    subst hok
    subst hp
    unfold handleDiscord
    simp only [hsig, hts, Bool.and_self, Bool.and_true]
    rw [show (it.type == InteractionType_PING) = false from by
          rw [htype]; rfl,
        show (it.type == InteractionType_APPLICATION_COMMAND) = true from by
          rw [htype]; rfl]
    simp only [Bool.false_eq_true, if_false, if_true]
    unfold commandDispatch
    rw [hd]
    simp only [hname]
    rw [show (("summarize" : String) == jsToLower ABOUT_COMMAND_name) = false from by decide,
        show (("summarize" : String) == jsToLower SUMMARIZE_COMMAND_name) = true from by decide]
    simp only [Bool.false_eq_true, if_false, if_true]
    exact hbranch
  exact ⟨hmain, by rw [hmain]; rfl⟩

/-- Witness for C8 at a concrete command interaction with no options. -/
theorem c8_witness :
    handleDiscord ⟨some "sig", some "ts", true,
        some ⟨2, some "tok", some ⟨"summarize", some []⟩⟩⟩
      = (.channelMessage noUrlMsg, none) ∧
    respTypeCode (handleDiscord ⟨some "sig", some "ts", true,
        some ⟨2, some "tok", some ⟨"summarize", some []⟩⟩⟩).1
      = some InteractionResponseType_CHANNEL_MESSAGE_WITH_SOURCE :=
  c8_no_url_synchronous_prompt _ _ _ rfl rfl rfl rfl rfl rfl (by decide) (by simp)

/-! ## Claim C10 -/

/-- The `summarize` branch reads only the interaction's options. -/
theorem summarizeBranch_depends_only_on_options (d₁ d₂ : InteractionData)
    (h : d₁.options = d₂.options) : summarizeBranch d₁ = summarizeBranch d₂ := by
  unfold summarizeBranch
  rw [h]

/-- The `summarize` branch never answers with the unknown-command error. -/
theorem summarizeBranch_ne_unknown (d : InteractionData) :
    (summarizeBranch d).1 ≠ .unknownCommand := by
  unfold summarizeBranch
  cases hf : (d.options.getD []).find? (fun o => o.name == "url") with
  | none => simp
  | some o =>
    by_cases hv : (o.value == "") = true
    · simp [hv]
    · simp only [hv, if_false, Bool.false_eq_true]
      by_cases hc : containsYouTubeLink o.value = true
      · simp only [hc, Bool.not_true, Bool.false_eq_true, if_false]
        cases extractYouTubeLinks o.value <;> simp
      · simp only [Bool.not_eq_true] at hc
        simp [hc]

/-- C10: command dispatch is case-insensitive — two command interactions
whose names agree after lowercasing (and with the same options) are
dispatched identically, and only a name matching neither registered
command (after lowercasing) yields the unknown-command error. -/
theorem c10_dispatch_case_insensitive (d₁ d₂ : InteractionData)
    (hn : jsToLower d₁.name = jsToLower d₂.name) (ho : d₁.options = d₂.options) :
    commandDispatch (some d₁) = commandDispatch (some d₂) ∧
    ((commandDispatch (some d₁)).1 = .unknownCommand ↔
      (jsToLower d₁.name ≠ jsToLower ABOUT_COMMAND_name ∧
       jsToLower d₁.name ≠ jsToLower SUMMARIZE_COMMAND_name)) := by
  constructor
  · unfold commandDispatch
    dsimp only
    rw [hn, summarizeBranch_depends_only_on_options d₁ d₂ ho]
  · unfold commandDispatch
    dsimp only
    by_cases h1 : (jsToLower d₁.name == jsToLower ABOUT_COMMAND_name) = true
    · simp only [h1, if_true]
      simp only [beq_iff_eq] at h1
      simp [h1]
    · simp only [h1, Bool.false_eq_true, if_false]
      by_cases h2 : (jsToLower d₁.name == jsToLower SUMMARIZE_COMMAND_name) = true
      · simp only [h2, if_true]
        simp only [beq_iff_eq] at h2
        have := summarizeBranch_ne_unknown d₁
        simp [this, h2]
      · simp only [h2, Bool.false_eq_true, if_false]
        simp only [beq_iff_eq] at h1 h2
        simp [h1, h2]

/-- Witness for C10: a mixed-case `SuMmArIzE` dispatches exactly like
`summarize`, and is not an unknown command. -/
theorem c10_witness :
    commandDispatch (some ⟨"SuMmArIzE", some []⟩) = commandDispatch (some ⟨"summarize", some []⟩) ∧
    ((commandDispatch (some ⟨"SuMmArIzE", some []⟩)).1 = .unknownCommand ↔
      (jsToLower "SuMmArIzE" ≠ jsToLower ABOUT_COMMAND_name ∧
       jsToLower "SuMmArIzE" ≠ jsToLower SUMMARIZE_COMMAND_name)) :=
  c10_dispatch_case_insensitive ⟨"SuMmArIzE", some []⟩ ⟨"summarize", some []⟩ (by decide) rfl

/-! ## Claim C3 -/

/-- A nonempty head survives an append on the right. -/
theorem head?_append_left {c : Char} {l₁ l₂ : List Char} (h : l₁.head? = some c) :
    (l₁ ++ l₂).head? = some c := by
  cases l₁ with
  | nil => simp at h
  | cons a t => simpa using h

/-- The degraded retry payload embeds the delivery error text. -/
theorem degradedContent_includes (t : String) : strIncludes (degradedContent t) t = true := by
  unfold strIncludes degradedContent
  simp only [strData_append]
  rw [List.append_assoc]
  exact listIncludes_append t.data _ _

/-- The degraded retry payload is never the original summary payload
(their first characters differ). -/
theorem degradedContent_ne_successContent (url summary t : String) :
    degradedContent t ≠ successContent url summary := by
  intro h
  have hL : (degradedContent t).data.head? = some '❌' := by
    simp only [degradedContent, strData_append]
    exact head?_append_left (head?_append_left rfl)
  have hR : (successContent url summary).data.head? = some '*' := by
    simp only [successContent, strData_append]
    exact head?_append_left (head?_append_left (head?_append_left (head?_append_left
      (head?_append_left (head?_append_left rfl)))))
  rw [h, hR] at hL
  exact absurd hL (by decide)

/-- C3: whenever the first follow-up PATCH returns a non-success status and
the error body is read, exactly one retry PATCH follows, its payload the
degraded error message embedding the delivery error text — not a repetition
of the summary payload — and no further delivery attempt is made whatever
the retry's outcome. -/
theorem c3_retry_once_degraded (url summary t : String) (w : BgWorld)
    (h1 : w.firstPatchRes = .ok false) (h2 : w.firstPatchText = .ok t) :
    bgTask url (.ok summary) w
      = (.ok (), [successContent url summary, degradedContent t]) ∧
    strIncludes (degradedContent t) t = true ∧
    degradedContent t ≠ successContent url summary := by
  refine ⟨?_, degradedContent_includes t, degradedContent_ne_successContent url summary t⟩
  unfold bgTask
  dsimp only
  rw [h1]
  dsimp only
  rw [h2]
  dsimp only
  cases w.retryPatchRes <;> rfl

/-- Witness for C3 at a concrete delivery world. -/
theorem c3_witness :
    bgTask "u" (.ok "S") ⟨.ok false, .ok "err", .ok true, .ok true⟩
      = (.ok (), [successContent "u" "S", degradedContent "err"]) ∧
    strIncludes (degradedContent "err") "err" = true ∧
    degradedContent "err" ≠ successContent "u" "S" :=
  c3_retry_once_degraded "u" "S" "err" ⟨.ok false, .ok "err", .ok true, .ok true⟩ rfl rfl

/-! ## Claim C7 -/

/-- Counterexample to C7 as stated: if the first PATCH throws and the
apology PATCH inside the `catch` throws as well, the exception escapes the
background task — it is not true that no exception ever propagates. -/
theorem c7_counterexample :
    (bgTask "u" (.ok "S")
        ⟨.error (some "network down"), .ok "", .ok true, .error (some "network down")⟩).1
      = .error (some "network down") ∧
    isThrown (bgTask "u" (.ok "S")
        ⟨.error (some "network down"), .ok "", .ok true, .error (some "network down")⟩).1
      = true := by
  constructor
  · rfl
  · rfl

/-- C7 amended: any exception raised in the background task's `try` phase
is caught at the outermost boundary and answered with an apology edit
attempt; the only exception that can propagate out of the background task
is one thrown by that apology delivery itself. -/
theorem c7_amended_catch_behavior (url : String) (s : Except JsErr String) (w : BgWorld) :
    (reachesCatch s w = true → apologyContent url ∈ (bgTask url s w).2) ∧
    (isThrown (bgTask url s w).1 = (reachesCatch s w && isThrown w.apologyPatchRes)) := by
  unfold bgTask reachesCatch bgCatch
  cases s with
  | error e => cases w.apologyPatchRes <;> simp [isThrown]
  | ok summary =>
    cases hf : w.firstPatchRes with
    | error e => cases w.apologyPatchRes <;> simp [isThrown]
    | ok b =>
      cases b with
      | true => simp [isThrown]
      | false =>
        cases ht : w.firstPatchText with
        | error e => cases w.apologyPatchRes <;> simp [isThrown]
        | ok txt => cases w.retryPatchRes <;> simp [isThrown]

/-- Witness for C7's amended claim: a rejected summarizer step reaches the
`catch` and the apology payload is attempted. -/
theorem c7_amended_witness :
    apologyContent "u" ∈
      (bgTask "u" (.error none) ⟨.ok true, .ok "", .ok true, .ok true⟩).2 :=
  (c7_amended_catch_behavior "u" (.error none) ⟨.ok true, .ok "", .ok true, .ok true⟩).1 rfl

/-! ## Claim C2 -/

/-- Delivery-attempt bounds for the background task: at least one and at
most two PATCH attempts in every world, and exactly one when the first
PATCH succeeds. -/
theorem bgTask_delivery_bounds (url : String) (s : Except JsErr String) (w : BgWorld) :
    1 ≤ (bgTask url s w).2.length ∧ (bgTask url s w).2.length ≤ 2 ∧
    (w.firstPatchRes = .ok true → (bgTask url s w).2.length = 1) := by
  unfold bgTask bgCatch
  cases s with
  | error e => cases hf : w.firstPatchRes <;> cases w.apologyPatchRes <;> simp
  | ok summary =>
    cases hf : w.firstPatchRes with
    | error e => cases w.apologyPatchRes <;> simp
    | ok b =>
      cases b with
      | true => simp
      | false =>
        cases ht : w.firstPatchText with
        | error e => cases w.apologyPatchRes <;> simp
        | ok txt => cases w.retryPatchRes <;> simp

/-- Counterexample to C2 as stated: a validated `summarize` invocation
whose first follow-up PATCH reports a non-success status performs a second
PATCH (the degraded retry) — more than one follow-up edit. -/
theorem c2_counterexample :
    handleDiscord ⟨some "sig", some "ts", true,
        some ⟨2, some "tok", some ⟨"summarize",
          some [⟨"url", "https://youtu.be/dQw4w9WgXcQ"⟩]⟩⟩⟩
      = (.deferred, some ⟨"https://youtu.be/dQw4w9WgXcQ", "dQw4w9WgXcQ",
          "https://www.youtube.com/watch?v=dQw4w9WgXcQ"⟩) ∧
    (runSummarize ⟨"https://youtu.be/dQw4w9WgXcQ", "dQw4w9WgXcQ",
          "https://www.youtube.com/watch?v=dQw4w9WgXcQ"⟩
        (some "key") (fun _ => .resolve (some "S"))
        ⟨.ok false, .ok "boom", .ok true, .ok true⟩).2.length = 2 := by
  constructor
  · decide
  · decide

/-- C2 amended: every command interaction receives exactly one initial
reply (the handler returns a single response by construction), and a
validated `summarize` invocation's background task makes at least one and
at most two follow-up edit attempts — exactly one when the first delivery
succeeds, with the second attempt (degraded retry or apology) occurring
only after a failed first delivery or a caught exception. -/
theorem c2_amended_delivery_bounds (inp : HandlerInput) (resp : HandlerResponse) (bg : BgSpec)
    (apiKey : Option String) (provider : ProviderRequest → ProviderOutcome) (w : BgWorld)
    (_h : handleDiscord inp = (resp, some bg)) :
    1 ≤ (runSummarize bg apiKey provider w).2.length ∧
    (runSummarize bg apiKey provider w).2.length ≤ 2 ∧
    (w.firstPatchRes = .ok true → (runSummarize bg apiKey provider w).2.length = 1) := by
  unfold runSummarize
  exact bgTask_delivery_bounds bg.url (summarizeWithGemini bg.videoUrl bg.videoId apiKey provider) w

/-- Witness for the amended C2 at a concrete validated invocation whose
first delivery succeeds. -/
theorem c2_amended_witness :
    1 ≤ (runSummarize ⟨"https://youtu.be/dQw4w9WgXcQ", "dQw4w9WgXcQ",
          "https://www.youtube.com/watch?v=dQw4w9WgXcQ"⟩
        (some "key") (fun _ => .resolve (some "S"))
        ⟨.ok true, .ok "", .ok true, .ok true⟩).2.length ∧
    (runSummarize ⟨"https://youtu.be/dQw4w9WgXcQ", "dQw4w9WgXcQ",
          "https://www.youtube.com/watch?v=dQw4w9WgXcQ"⟩
        (some "key") (fun _ => .resolve (some "S"))
        ⟨.ok true, .ok "", .ok true, .ok true⟩).2.length ≤ 2 ∧
    ((⟨.ok true, .ok "", .ok true, .ok true⟩ : BgWorld).firstPatchRes = .ok true →
      (runSummarize ⟨"https://youtu.be/dQw4w9WgXcQ", "dQw4w9WgXcQ",
            "https://www.youtube.com/watch?v=dQw4w9WgXcQ"⟩
          (some "key") (fun _ => .resolve (some "S"))
          ⟨.ok true, .ok "", .ok true, .ok true⟩).2.length = 1) :=
  c2_amended_delivery_bounds
    ⟨some "sig", some "ts", true,
      some ⟨2, some "tok", some ⟨"summarize", some [⟨"url", "https://youtu.be/dQw4w9WgXcQ"⟩]⟩⟩⟩
    .deferred
    ⟨"https://youtu.be/dQw4w9WgXcQ", "dQw4w9WgXcQ", "https://www.youtube.com/watch?v=dQw4w9WgXcQ"⟩
    (some "key") (fun _ => .resolve (some "S"))
    ⟨.ok true, .ok "", .ok true, .ok true⟩
    (by decide)
